import Mathlib

/-!
# Verification of the weather-data retrieval and normalization pipeline

A shallow embedding of `src/weather_data.py` (and its near-duplicate
`src/test.py`): request-parameter construction, UTC→MSK time conversion,
positional extraction of the current-conditions block into a rounded
record, the weather-code catalog, and summary rendering.

Numeric values are idealised as rationals (`ℚ`); Python's `round`
built-in (banker's rounding) and `int` truncation are modelled exactly
over `ℚ`.  Binary floating-point representation effects are outside the
model.  All arithmetic in the definitions is done on the integer
numerator/denominator pairs so that every definition evaluates inside
the kernel.
-/

namespace Weather

/-- Python's builtin `round` on a fraction `n / d` (with `d > 0`):
round-half-to-even (banker's rounding).  `n / d` is the floor of the
fraction (`/` on `ℤ` rounds toward `-∞` for positive divisors);
`2 * (n - n / d * d)` is twice the remainder, compared against the
denominator to detect the half-way tie. -/
def roundHalfEven (n d : ℤ) : ℤ :=
  if 2 * (n - n / d * d) < d then n / d
  else if d < 2 * (n - n / d * d) then n / d + 1
  else if n / d % 2 = 0 then n / d else n / d + 1

/-- Models Python `round(x)` (no `ndigits`): nearest integer, ties to
even.  Used at `weather_data.py:160,167-169,171` for humidity, cloud
cover, both pressures and wind direction. -/
def pyRound (q : ℚ) : ℤ := roundHalfEven q.num q.den

/-- Models Python `round(x, 1)`: nearest multiple of 1/10, ties to
even.  Used at `weather_data.py:159,161-165,170,172` for the
temperature family, the precipitation family, wind speed and gusts. -/
def pyRound1 (q : ℚ) : ℚ := mkRat (roundHalfEven (10 * q.num) q.den) 10

/-- Models Python `int(x)`: truncation toward zero.  Used at
`weather_data.py:166` for the weather code. -/
def intTrunc (q : ℚ) : ℤ := Int.tdiv q.num q.den

/-! ## Calendar arithmetic

Models CPython's proleptic-Gregorian `datetime` values.  Civil dates
are converted to/from a day count from the Unix epoch (1970-01-01)
with the standard era-based algorithm. -/

/-- Day count since 1970-01-01 of the civil date `y-m-d`. -/
def daysFromCivil (y m d : ℤ) : ℤ :=
  let y' := if m ≤ 2 then y - 1 else y
  let era := y' / 400
  let yoe := y' - era * 400
  let mp := (m + 9) % 12
  let doy := (153 * mp + 2) / 5 + d - 1
  let doe := yoe * 365 + yoe / 4 - yoe / 100 + doy
  era * 146097 + doe - 719468

/-- Civil date `(y, m, d)` of a day count since 1970-01-01. -/
def civilFromDays (z : ℤ) : ℤ × ℤ × ℤ :=
  let z' := z + 719468
  let era := z' / 146097
  let doe := z' - era * 146097
  let yoe := (doe - doe / 1460 + doe / 36524 - doe / 146096) / 365
  let y := yoe + era * 400
  let doy := doe - (365 * yoe + yoe / 4 - yoe / 100)
  let mp := (5 * doy + 2) / 153
  let d := doy - (153 * mp + 2) / 5 + 1
  let m := mp + (if mp < 10 then 3 else -9)
  (if m ≤ 2 then y + 1 else y, m, d)

/-- A CPython `datetime.datetime` value: civil fields plus the
`tzinfo` UTC offset in minutes (`none` = naive datetime). -/
structure PyDateTime where
  year : ℤ
  month : ℤ
  day : ℤ
  hour : ℤ
  minute : ℤ
  second : ℤ
  tzOffsetMinutes : Option ℤ
deriving DecidableEq

/-- Seconds since the Unix epoch of the civil fields of `dt`, read as
UTC (the `tzinfo` field is ignored here). -/
def epochOfCivil (dt : PyDateTime) : ℤ :=
  daysFromCivil dt.year dt.month dt.day * 86400 +
    dt.hour * 3600 + dt.minute * 60 + dt.second

/-- The naive civil datetime of an epoch-second count (UTC). -/
def civilOfEpoch (t : ℤ) : PyDateTime :=
  let days := t / 86400
  let sod := t - days * 86400
  let ymd := civilFromDays days
  ⟨ymd.1, ymd.2.1, ymd.2.2, sod / 3600, (sod % 3600) / 60, sod % 60, none⟩

/-- Epoch seconds of `datetime.min` = 0001-01-01T00:00:00, the lower
bound of CPython's supported datetime range (`MINYEAR`). -/
def minEpoch : ℤ := daysFromCivil 1 1 1 * 86400

/-- Epoch seconds of `datetime.max` (to second precision) =
9999-12-31T23:59:59, the upper bound of CPython's supported datetime
range (`MAXYEAR`). -/
def maxEpoch : ℤ := daysFromCivil 9999 12 31 * 86400 + 86399

/-! ## ISO-8601 parsing — `datetime.fromisoformat`

Modelled subset: `YYYY-MM-DD`, optionally followed by a single
separator character and `HH:MM[:SS]`, optionally followed by an offset
`±HH:MM`.  (CPython also accepts fractional seconds and offsets with
seconds; no string in this repository's pipeline uses those forms.)
Field ranges are validated as CPython does: year ≥ 1, month 1–12, day
bounded by the month length, hour ≤ 23, minute/second ≤ 59, offset
magnitude < 24 hours. -/

/-- Numeric value of a decimal digit character. -/
def digitVal (c : Char) : Option ℤ :=
  if '0' ≤ c ∧ c ≤ '9' then some ((c.toNat : ℤ) - 48) else none

/-- Two-digit decimal field. -/
def twoDigits (a b : Char) : Option ℤ := do
  let x ← digitVal a
  let y ← digitVal b
  pure (10 * x + y)

/-- Four-digit decimal field. -/
def fourDigits (a b c d : Char) : Option ℤ := do
  let x ← twoDigits a b
  let y ← twoDigits c d
  pure (100 * x + y)

/-- Leap-year test of the proleptic Gregorian calendar. -/
def isLeapYear (y : ℤ) : Bool :=
  decide ((y % 4 = 0 ∧ ¬y % 100 = 0) ∨ y % 400 = 0)

/-- Number of days in month `m` of year `y`. -/
def daysInMonth (y m : ℤ) : ℤ :=
  if m = 2 then (if isLeapYear y then 29 else 28)
  else if m = 4 ∨ m = 6 ∨ m = 9 ∨ m = 11 then 30
  else 31

/-- UTC offset suffix `±HH:MM`, in minutes. -/
def parseOffsetTail : List Char → Option ℤ
  | ['+', h1, h2, ':', m1, m2] => do
      let hh ← twoDigits h1 h2
      let mm ← twoDigits m1 m2
      if hh ≤ 23 ∧ mm ≤ 59 then pure (60 * hh + mm) else none
  | ['-', h1, h2, ':', m1, m2] => do
      let hh ← twoDigits h1 h2
      let mm ← twoDigits m1 m2
      if hh ≤ 23 ∧ mm ≤ 59 then pure (-(60 * hh + mm)) else none
  | _ => none

/-- Time-of-day part `HH:MM[:SS]` with optional offset suffix:
`(hour, minute, second, offset)`. -/
def parseTimeTail : List Char → Option (ℤ × ℤ × ℤ × Option ℤ)
  | h1 :: h2 :: ':' :: m1 :: m2 :: rest => do
      let hh ← twoDigits h1 h2
      let mm ← twoDigits m1 m2
      if hh ≤ 23 ∧ mm ≤ 59 then
        match rest with
        | [] => pure (hh, mm, 0, none)
        | ':' :: s1 :: s2 :: rest2 => do
            let ss ← twoDigits s1 s2
            if ss ≤ 59 then
              match rest2 with
              | [] => pure (hh, mm, ss, none)
              | _ => do
                  let off ← parseOffsetTail rest2
                  pure (hh, mm, ss, some off)
            else none
        | _ => do
            let off ← parseOffsetTail rest
            pure (hh, mm, 0, some off)
      else none
  | _ => none

/-- Models `datetime.fromisoformat` on the character list of the input
string (`none` = `ValueError`). -/
def fromisoformat : List Char → Option PyDateTime
  | y1 :: y2 :: y3 :: y4 :: '-' :: mo1 :: mo2 :: '-' :: d1 :: d2 :: rest => do
      let y ← fourDigits y1 y2 y3 y4
      let mo ← twoDigits mo1 mo2
      let d ← twoDigits d1 d2
      if 1 ≤ y ∧ 1 ≤ mo ∧ mo ≤ 12 ∧ 1 ≤ d ∧ d ≤ daysInMonth y mo then
        match rest with
        | [] => pure ⟨y, mo, d, 0, 0, 0, none⟩
        | _ :: timeChars => do
            let tt ← parseTimeTail timeChars
            pure ⟨y, mo, d, tt.1, tt.2.1, tt.2.2.1, tt.2.2.2⟩
      else none
  | _ => none

/-- Models `utc_datetime_str.replace('Z', '+00:00')`
(`weather_data.py:57`). -/
def replaceZ : List Char → List Char
  | [] => []
  | 'Z' :: rest => '+' :: '0' :: '0' :: ':' :: '0' :: '0' :: replaceZ rest
  | c :: rest => c :: replaceZ rest

/-- Two-digit zero-padded decimal rendering (for values in 0–99). -/
def pad2 (n : ℤ) : String := (if n < 10 then "0" else "") ++ toString n

/-- Four-digit zero-padded decimal rendering (for values in 0–9999). -/
def pad4 (n : ℤ) : String :=
  (if n < 10 then "000" else if n < 100 then "00" else if n < 1000 then "0" else "")
    ++ toString n

/-- Models `strftime('%Y-%m-%d %H:%M:%S')` (`weather_data.py:68`). -/
def strftimeCivil (dt : PyDateTime) : String :=
  pad4 dt.year ++ "-" ++ pad2 dt.month ++ "-" ++ pad2 dt.day ++ " " ++
    pad2 dt.hour ++ ":" ++ pad2 dt.minute ++ ":" ++ pad2 dt.second

/-- Models `datetime.fromtimestamp(t, timezone.utc).isoformat()`
(`weather_data.py:138-139`). -/
def isoformatUtc (t : ℤ) : String :=
  let dt := civilOfEpoch t
  pad4 dt.year ++ "-" ++ pad2 dt.month ++ "-" ++ pad2 dt.day ++ "T" ++
    pad2 dt.hour ++ ":" ++ pad2 dt.minute ++ ":" ++ pad2 dt.second ++ "+00:00"

/-- Europe/Moscow's UTC offset in seconds.  The zone has had a fixed
+03:00 offset with no daylight-saving transitions in the modern tz
database (since 2014); the spec likewise treats it as a fixed +3
offset. -/
def mskOffsetSeconds : ℤ := 10800

/-- Models `aware_utc_dt.astimezone(msk_tz)` on an epoch instant:
fails (Python `OverflowError`, `none`) when the intermediate UTC
datetime or the Moscow result falls outside CPython's supported
`MINYEAR`–`MAXYEAR` range, otherwise yields the Moscow civil
datetime. -/
def astimezoneToMsk (utcEpoch : ℤ) : Option PyDateTime :=
  if minEpoch ≤ utcEpoch ∧ utcEpoch ≤ maxEpoch then
    let mskEpoch := utcEpoch + mskOffsetSeconds
    if minEpoch ≤ mskEpoch ∧ mskEpoch ≤ maxEpoch then some (civilOfEpoch mskEpoch)
    else none
  else none

/-- The offset-carrying branch of `convert_utc_to_msk_pytz`
(`weather_data.py:55-58` plus the shared conversion at lines 65-68).
An aware datetime is used as-is; a naive one is interpreted by
`astimezone` in the system's local timezone, whose offset (in
seconds) is the explicit parameter `localOffSec`.  `none` models an
exception inside the `try` block. -/
def convertAware (dt : PyDateTime) (localOffSec : ℤ) : Option String :=
  let utcEpoch :=
    match dt.tzOffsetMinutes with
    | some o => epochOfCivil dt - o * 60
    | none => epochOfCivil dt - localOffSec
  (astimezoneToMsk utcEpoch).map strftimeCivil

/-- The body of the `try` block of `convert_utc_to_msk_pytz`
(`weather_data.py:49-68`); `none` models any raised exception.  In the
branch without `'+'`/`'Z'`, a string that nevertheless parses to an
aware datetime (a negative-offset ISO string) makes
`pytz.UTC.localize` raise `ValueError` ("Not naive datetime"), hence
`none`. -/
def convert_attempt (s : String) (localOffSec : ℤ) : Option String :=
  if '+' ∈ s.data ∨ 'Z' ∈ s.data then
    (fromisoformat (replaceZ s.data)).bind fun dt => convertAware dt localOffSec
  else
    (fromisoformat s.data).bind fun dt =>
      match dt.tzOffsetMinutes with
      | some _ => none
      | none => (astimezoneToMsk (epochOfCivil dt)).map strftimeCivil

/-- Models `convert_utc_to_msk_pytz` (`weather_data.py:39-71`): on any
exception inside the `try` block the original input string is
returned unchanged (the `except` clause at lines 69-71). -/
def convert_utc_to_msk_pytz (s : String) (localOffSec : ℤ) : String :=
  (convert_attempt s localOffSec).getD s

/-! ## Weather-code catalog — `log_weather_summary`

The static table at `weather_data.py:199-228` and the `dict.get`
fallback at lines 230-233. -/

/-- The `weather_codes` dictionary of `weather_data.py:199-228`, in
source order. -/
def weather_codes : List (ℤ × String) :=
  [(0, "☀️ Ясно"),
   (1, "🌤️ Преимущественно ясно"),
   (2, "⛅ Переменная облачность"),
   (3, "☁️ Пасмурно"),
   (45, "🌫️ Туман"),
   (48, "🌫️ Изморозь"),
   (51, "🌧️ Морось слабая"),
   (53, "🌧️ Морось умеренная"),
   (55, "🌧️ Морось сильная"),
   (56, "🌧️❄️ Ледяная морось слабая"),
   (57, "🌧️❄️ Ледяная морось сильная"),
   (61, "🌧️ Дождь слабый"),
   (63, "🌧️ Дождь умеренный"),
   (65, "🌧️ Дождь сильный"),
   (66, "🌧️🧊 Ледяной дождь слабый"),
   (67, "🌧️🧊 Ледяной дождь сильный"),
   (71, "🌨️ Снег слабый"),
   (73, "🌨️ Снег умеренный"),
   (75, "🌨️ Снег сильный"),
   (77, "❄️ Снежные зерна"),
   (80, "🌦️ Ливень слабый"),
   (81, "🌦️ Ливень умеренный"),
   (82, "⛈️ Ливень сильный"),
   (85, "🌨️ Снегопад слабый"),
   (86, "🌨️ Снегопад сильный"),
   (95, "⛈️ Гроза"),
   (96, "⛈️ Гроза с градом слабая"),
   (99, "⛈️ Гроза с градом сильная")]

/-- Models `weather_codes.get(code, f"Код погоды: {code}")`
(`weather_data.py:230-233`): exact-match dictionary lookup with a
fallback string embedding the numeric code. -/
def describe (code : ℤ) : String :=
  (weather_codes.lookup code).getD ("Код погоды: " ++ toString code)

/-! ## Request construction — `get_weather_data` parameters

The `params` dictionary of `weather_data.py:97-118`. -/

/-- The request parameter set (`params` at `weather_data.py:97-118`). -/
structure Params where
  latitude : ℚ
  longitude : ℚ
  current : List String
  hourly : List String
  daily : List String
  timezone : String
  forecast_days : ℤ
  past_days : ℤ
deriving DecidableEq

/-- Constructs the request parameters exactly as
`weather_data.py:97-118`: the fixed 14-name current list, 6-name
hourly list, 8-name daily list, `timezone = "auto"`, the caller's
`forecast_days` passed through, and `past_days = 0`.  The source
performs no validation of `forecast_days`. -/
def forecastRequestParams (latitude longitude : ℚ) (forecast_days : ℤ) : Params :=
  { latitude := latitude
    longitude := longitude
    current :=
      ["temperature_2m", "relative_humidity_2m", "apparent_temperature",
       "precipitation", "rain", "showers", "snowfall", "weather_code",
       "cloud_cover", "pressure_msl", "surface_pressure", "wind_speed_10m",
       "wind_direction_10m", "wind_gusts_10m"]
    hourly :=
      ["temperature_2m", "relative_humidity_2m", "precipitation",
       "weather_code", "surface_pressure", "wind_speed_10m"]
    daily :=
      ["weather_code", "temperature_2m_max", "temperature_2m_min",
       "apparent_temperature_max", "apparent_temperature_min",
       "precipitation_sum", "precipitation_hours", "wind_speed_10m_max"]
    timezone := "auto"
    forecast_days := forecast_days
    past_days := 0 }

/-! ## Raw response and the normalised weather record -/

/-- The current-conditions block of a raw provider response: the
observation time in epoch seconds (`current.Time()`) and the
positional variable slots (`current.Variables(i).Value()`).  A slot
holding `none` models a non-numeric value; indexing past the end of
the list models a response with fewer slots than requested. -/
structure RawCurrent where
  time : ℤ
  slots : List (Option ℚ)
deriving DecidableEq

/-- A raw provider response as consumed by `get_weather_data`
(`weather_data.py:130-135`): elevation plus the current-conditions
block.  The hourly and daily blocks are bound by the source
(lines 134-135) but never used, so they are not modelled. -/
structure RawResponse where
  elevation : ℚ
  current : RawCurrent
deriving DecidableEq

/-- The `coordinates` sub-dictionary (`weather_data.py:151-155`). -/
structure Coordinates where
  latitude : ℚ
  longitude : ℚ
  elevation : ℚ
deriving DecidableEq

/-- The `units` sub-dictionary (`weather_data.py:175-180`). -/
structure Units where
  temperature : String
  precipitation : String
  pressure : String
  wind_speed : String
deriving DecidableEq

/-- The `current` sub-dictionary of the result
(`weather_data.py:156-173`). -/
structure CurrentWeather where
  time_utc : String
  time_msk : String
  temperature : ℚ
  humidity : ℤ
  apparent_temperature : ℚ
  precipitation : ℚ
  rain : ℚ
  showers : ℚ
  snowfall : ℚ
  weather_code : ℤ
  cloud_cover : ℤ
  pressure_msl : ℤ
  surface_pressure : ℤ
  wind_speed : ℚ
  wind_direction : ℤ
  wind_gusts : ℚ
deriving DecidableEq

/-- The `weather_data` result dictionary (`weather_data.py:148-181`). -/
structure WeatherData where
  timestamp : String
  timestamp_utc : String
  coordinates : Coordinates
  current : CurrentWeather
  forecast_days : ℤ
  units : Units
deriving DecidableEq

/-- Positional access `current.Variables(i).Value()`: `none` models
the exception raised when the slot is absent (index out of range) or
its value is not numeric. -/
def getVal (l : List (Option ℚ)) (i : ℕ) : Option ℚ := (l[i]?).bind id

/-- The field-by-field construction of the `current` sub-dictionary
(`weather_data.py:156-173`), reading the 14 positional slots in
declaration order and applying the per-field rounding of the source;
`none` models an exception at the first failing slot access. -/
def extractCurrent (c : RawCurrent) (time_utc time_msk : String) :
    Option CurrentWeather :=
  (getVal c.slots 0).bind fun v0 =>
  (getVal c.slots 1).bind fun v1 =>
  (getVal c.slots 2).bind fun v2 =>
  (getVal c.slots 3).bind fun v3 =>
  (getVal c.slots 4).bind fun v4 =>
  (getVal c.slots 5).bind fun v5 =>
  (getVal c.slots 6).bind fun v6 =>
  (getVal c.slots 7).bind fun v7 =>
  (getVal c.slots 8).bind fun v8 =>
  (getVal c.slots 9).bind fun v9 =>
  (getVal c.slots 10).bind fun v10 =>
  (getVal c.slots 11).bind fun v11 =>
  (getVal c.slots 12).bind fun v12 =>
  (getVal c.slots 13).bind fun v13 =>
  some
    { time_utc := time_utc
      time_msk := time_msk
      temperature := pyRound1 v0
      humidity := pyRound v1
      apparent_temperature := pyRound1 v2
      precipitation := pyRound1 v3
      rain := pyRound1 v4
      showers := pyRound1 v5
      snowfall := pyRound1 v6
      weather_code := intTrunc v7
      cloud_cover := pyRound v8
      pressure_msl := pyRound v9
      surface_pressure := pyRound v10
      wind_speed := pyRound1 v11
      wind_direction := pyRound v12
      wind_gusts := pyRound1 v13 }

/-- The record-construction half of `get_weather_data`
(`weather_data.py:130-181`): observation-time formatting and
conversion, then the result dictionary.  `nowMsk` models
`get_current_msk_time()` and `nowUtcIso` models
`datetime.now(timezone.utc).isoformat()` (both wall-clock reads);
`localOffSec` is the system timezone offset threaded to the time
converter.  `none` models an exception inside the `try` block: a
failing slot access, or `datetime.fromtimestamp` rejecting an
out-of-range timestamp. -/
def extractWeatherData (r : RawResponse) (latitude longitude : ℚ)
    (forecast_days : ℤ) (nowMsk nowUtcIso : String) (localOffSec : ℤ) :
    Option WeatherData :=
  if minEpoch ≤ r.current.time ∧ r.current.time ≤ maxEpoch then
    let utc_time_str := isoformatUtc r.current.time
    let msk_time_str := convert_utc_to_msk_pytz utc_time_str localOffSec
    (extractCurrent r.current utc_time_str msk_time_str).map fun cur =>
      { timestamp := nowMsk
        timestamp_utc := nowUtcIso
        coordinates := ⟨latitude, longitude, r.elevation⟩
        current := cur
        forecast_days := forecast_days
        units := ⟨"°C", "mm", "hPa", "km/h"⟩ }
  else none

/-- Modelled from the spec: the spec's error taxonomy names the
builder's failure `MalformedResponseError`.  The source
(`weather_data.py`) raises a nameless exception at the failing slot
access and has no error classes of its own; the accessor behaviour of
the response object lives in the SDK outside this repository, so the
failure is labelled here with the spec's name. -/
inductive BuildError where
  | malformedResponse : BuildError
deriving DecidableEq

/-- The record builder with its failure labelled: `Except`-typed view
of `extractWeatherData`. -/
def weatherRecordBuild (r : RawResponse) (latitude longitude : ℚ)
    (forecast_days : ℤ) (nowMsk nowUtcIso : String) (localOffSec : ℤ) :
    Except BuildError WeatherData :=
  (extractWeatherData r latitude longitude forecast_days nowMsk nowUtcIso
    localOffSec).elim (.error .malformedResponse) .ok

/-! ## The pipeline — `get_weather_data` -/

/-- Logging levels of the sink (`utils/logger.py`). -/
inductive LogLevel where
  | debug | info | warning | error
deriving DecidableEq

/-- One leveled log message. -/
structure LogEntry where
  level : LogLevel
  msg : String
deriving DecidableEq

/-- Idealised rendering of a numeric value inside a log message.  The
claims never inspect this text; it stands in for Python's float
`repr` in the INFO line at `weather_data.py:121`. -/
def showQ (q : ℚ) : String :=
  toString q.num ++ (if q.den = 1 then "" else "/" ++ toString q.den)

/-- Models `get_weather_data` (`weather_data.py:81-188`).  The
injected `transport` models `client.weather_api(url, params)`:
`Except.error` is a raised transport exception, `Except.ok` the
provider's response list.  The whole body is wrapped in
`try/except Exception` (lines 120 and 186-188), so the function
always returns a pair (no exception escapes): an optional result
dictionary and the emitted log messages.  Failure paths return `none`
and log one ERROR line (lines 126-128 for the empty list, 186-188 for
any exception). -/
def get_weather_data (transport : Params → Except String (List RawResponse))
    (latitude longitude : ℚ) (forecast_days : ℤ)
    (nowMsk nowUtcIso : String) (localOffSec : ℤ) :
    Option WeatherData × List LogEntry :=
  let params := forecastRequestParams latitude longitude forecast_days
  let log0 : List LogEntry :=
    [⟨.info, "Запрос погоды для координат: " ++ showQ latitude ++ ", " ++
        showQ longitude⟩]
  match transport params with
  | .error e =>
      (none, log0 ++ [⟨.error, "Ошибка при получении данных погоды: " ++ e⟩])
  | .ok [] =>
      (none, log0 ++ [⟨.error, "Получен пустой ответ от API"⟩])
  | .ok (r :: _) =>
      match weatherRecordBuild r latitude longitude forecast_days nowMsk
          nowUtcIso localOffSec with
      | .error _ =>
          (none,
           log0 ++ [⟨.error,
             "Ошибка при получении данных погоды: malformed response"⟩])
      | .ok w => (some w, log0 ++ [⟨.info, "Данные погоды успешно получены."⟩])

/-! ## Summary rendering — `log_weather_summary` -/

/-- Renders a one-decimal field the way Python prints the float
produced by `round(x, 1)` (e.g. `18.5`, `-3.0`, `0.0`).  Intended for
rationals whose denominator divides 10, which is what the builder
produces. -/
def fmtTenths (q : ℚ) : String :=
  let k : ℤ := q.num * (10 / (q.den : ℤ))
  (if k < 0 then "-" else "") ++
    toString (k.natAbs / 10) ++ "." ++ toString (k.natAbs % 10)

/-- Models `log_weather_summary` (`weather_data.py:191-243`) as the
ordered list of INFO lines it emits: pure rendering of a record.  A
missing record (`if not weather_data: return`, lines 193-194) renders
nothing. -/
def log_weather_summary : Option WeatherData → List String
  | none => []
  | some w =>
    let current := w.current
    let weather_description := describe current.weather_code
    ["СВОДКА ПОГОДЫ",
     "Время наблюдения (МСК): " ++ current.time_msk,
     "Время запроса (МСК):    " ++ w.timestamp,
     "Температура:            " ++ fmtTenths current.temperature ++
       "°C (ощущается как " ++ fmtTenths current.apparent_temperature ++ "°C)",
     "Влажность:              " ++ toString current.humidity ++ "%",
     "Погода:                 " ++ weather_description,
     "Ветер:                  " ++ fmtTenths current.wind_speed ++
       " км/ч, порывы до " ++ fmtTenths current.wind_gusts ++ " км/ч",
     "Давление:               " ++ toString current.surface_pressure ++ " hPa",
     "Осадки:                 " ++ fmtTenths current.precipitation ++ " мм/ч"]

/-! ## Sample data for concrete evaluations -/

/-- The exact-match keys of the catalog, in source order
(`weather_data.py:199-228`). -/
def catalogKeys : List ℤ :=
  [0, 1, 2, 3, 45, 48, 51, 53, 55, 56, 57, 61, 63, 65, 66, 67,
   71, 73, 75, 77, 80, 81, 82, 85, 86, 95, 96, 99]

/-- A well-formed sample raw response: observation time
2024-01-15T12:00:00Z and 14 numeric current-condition slots. -/
def sampleResponse : RawResponse :=
  ⟨mkRat 150 1,
   ⟨1705320000,
    [some (mkRat 18456 1000), some (mkRat 634 10), some (mkRat 171 10),
     some (mkRat 5 10), some (mkRat 3 10), some 0, some 0,
     some (mkRat 619 10), some (mkRat 80 1), some (mkRat 10132 10),
     some (mkRat 10015 10), some (mkRat 123 10), some (mkRat 2705 10),
     some (mkRat 204 10)]⟩⟩

/-- A sample raw response whose current block has only 5 slots. -/
def shortResponse : RawResponse :=
  ⟨mkRat 150 1,
   ⟨1705320000,
    [some (mkRat 18456 1000), some (mkRat 634 10), some (mkRat 171 10),
     some (mkRat 5 10), some (mkRat 3 10)]⟩⟩

/-- A sample normalised record, for rendering checks. -/
def sampleRecord : WeatherData :=
  { timestamp := "2024-01-15 15:05:00"
    timestamp_utc := "2024-01-15T12:05:00+00:00"
    coordinates := ⟨mkRat 5036 100, mkRat 3636 100, mkRat 150 1⟩
    current :=
      { time_utc := "2024-01-15T12:00:00+00:00"
        time_msk := "2024-01-15 15:00:00"
        temperature := mkRat 185 10
        humidity := 63
        apparent_temperature := mkRat 171 10
        precipitation := mkRat 5 10
        rain := mkRat 3 10
        showers := 0
        snowfall := 0
        weather_code := 61
        cloud_cover := 80
        pressure_msl := 1013
        surface_pressure := 1002
        wind_speed := mkRat 123 10
        wind_direction := 271
        wind_gusts := mkRat 204 10 }
    forecast_days := 3
    units := ⟨"°C", "mm", "hPa", "km/h"⟩ }

/-! # Helper lemmas -/

/-- `pyRound` in terms of the floor and the fractional part:
round to the nearest integer, ties to the even neighbour. -/
theorem pyRound_eq (q : ℚ) :
    pyRound q =
      if 2 * (q - ⌊q⌋) < 1 then ⌊q⌋
      else if 1 < 2 * (q - ⌊q⌋) then ⌊q⌋ + 1
      else if Even ⌊q⌋ then ⌊q⌋ else ⌊q⌋ + 1 := by
  have hden : (0 : ℚ) < (q.den : ℚ) := by exact_mod_cast q.den_pos
  have hnum : ((q.num : ℚ)) = q * (q.den : ℚ) := by
    have h := Rat.num_div_den q
    rw [div_eq_iff hden.ne'] at h
    exact h
  have hcast : ∀ k : ℤ, ((2 * (q.num - k * q.den) : ℤ) : ℚ) = 2 * (q - k) * q.den := by
    intro k
    push_cast
    rw [hnum]
    ring
  have hlt1 : (2 * (q.num - ⌊q⌋ * q.den) < (q.den : ℤ)) ↔ 2 * (q - ⌊q⌋) < 1 := by
    rw [iff_comm, ← mul_lt_mul_right hden, one_mul, ← hcast]
    exact_mod_cast Iff.rfl
  have hlt2 : ((q.den : ℤ) < 2 * (q.num - ⌊q⌋ * q.den)) ↔ 1 < 2 * (q - ⌊q⌋) := by
    rw [iff_comm, ← mul_lt_mul_right hden, one_mul, ← hcast]
    exact_mod_cast Iff.rfl
  have heven : (⌊q⌋ % 2 = 0) ↔ Even ⌊q⌋ := Int.even_iff.symm
  rw [pyRound, roundHalfEven, ← Rat.floor_def]
  rw [if_congr hlt1 rfl (if_congr hlt2 rfl (if_congr heven rfl rfl))]

/-- Python `round` on an exact half-integer resolves the tie to the
even neighbour. -/
theorem pyRound_add_half (n : ℤ) :
    pyRound ((n : ℚ) + 1 / 2) = if Even n then n else n + 1 := by
  have hfloor : ⌊(n : ℚ) + 1 / 2⌋ = n := by
    rw [Int.floor_int_add]
    norm_num [Int.floor_eq_zero_iff]
  rw [pyRound_eq, hfloor]
  have h2 : 2 * (((n : ℚ) + 1 / 2) - n) = 1 := by ring
  rw [h2]
  norm_num

/-- If the field-by-field construction of the `current` sub-dictionary
succeeds, every one of the 14 positional slot accesses succeeded. -/
theorem extractCurrent_success_slots {c : RawCurrent} {tu tm : String}
    {w : CurrentWeather} (hE : extractCurrent c tu tm = some w) :
    ∀ i, i < 14 → ∃ v, getVal c.slots i = some v := by
  rw [extractCurrent] at hE
  obtain ⟨v0, h0, hE⟩ := Option.bind_eq_some.mp hE
  obtain ⟨v1, h1, hE⟩ := Option.bind_eq_some.mp hE
  obtain ⟨v2, h2, hE⟩ := Option.bind_eq_some.mp hE
  obtain ⟨v3, h3, hE⟩ := Option.bind_eq_some.mp hE
  obtain ⟨v4, h4, hE⟩ := Option.bind_eq_some.mp hE
  obtain ⟨v5, h5, hE⟩ := Option.bind_eq_some.mp hE
  obtain ⟨v6, h6, hE⟩ := Option.bind_eq_some.mp hE
  obtain ⟨v7, h7, hE⟩ := Option.bind_eq_some.mp hE
  obtain ⟨v8, h8, hE⟩ := Option.bind_eq_some.mp hE
  obtain ⟨v9, h9, hE⟩ := Option.bind_eq_some.mp hE
  obtain ⟨v10, h10, hE⟩ := Option.bind_eq_some.mp hE
  obtain ⟨v11, h11, hE⟩ := Option.bind_eq_some.mp hE
  obtain ⟨v12, h12, hE⟩ := Option.bind_eq_some.mp hE
  obtain ⟨v13, h13, hE⟩ := Option.bind_eq_some.mp hE
  intro i hi
  interval_cases i
  · exact ⟨v0, h0⟩
  · exact ⟨v1, h1⟩
  · exact ⟨v2, h2⟩
  · exact ⟨v3, h3⟩
  · exact ⟨v4, h4⟩
  · exact ⟨v5, h5⟩
  · exact ⟨v6, h6⟩
  · exact ⟨v7, h7⟩
  · exact ⟨v8, h8⟩
  · exact ⟨v9, h9⟩
  · exact ⟨v10, h10⟩
  · exact ⟨v11, h11⟩
  · exact ⟨v12, h12⟩
  · exact ⟨v13, h13⟩

/-- A current block with fewer than 14 slots, or with a non-numeric
slot among the first 14, makes the field-by-field construction fail. -/
theorem extractCurrent_eq_none (c : RawCurrent) (tu tm : String)
    (h : c.slots.length < 14 ∨ ∃ i, i < 14 ∧ c.slots[i]? = some none) :
    extractCurrent c tu tm = none := by
  cases hE : extractCurrent c tu tm with
  | none => rfl
  | some w =>
    exfalso
    have hs := extractCurrent_success_slots hE
    rcases h with hlen | ⟨i, hi, hnone⟩
    · obtain ⟨v, hv⟩ := hs 13 (by omega)
      rw [getVal] at hv
      obtain ⟨o, ho, _⟩ := Option.bind_eq_some.mp hv
      have h13 := (List.getElem?_eq_some_iff.mp ho).1
      omega
    · obtain ⟨v, hv⟩ := hs i hi
      rw [getVal, hnone] at hv
      simp at hv

/-- Exact-match association lookup on a key absent from the key
column yields `none`. -/
theorem lookup_eq_none_of_not_mem {l : List (ℤ × String)} {c : ℤ}
    (h : c ∉ l.map Prod.fst) : l.lookup c = none := by
  induction l with
  | nil => rfl
  | cons p rest ih =>
    simp only [List.map_cons, List.mem_cons] at h
    push_neg at h
    have hbeq : (c == p.1) = false := beq_eq_false_iff_ne.mpr h.1
    obtain ⟨k, v⟩ := p
    simp only [List.lookup]
    rw [show (c == k) = false from hbeq]
    exact ih h.2

/-! # Claims -/

/-- C7: for every forecastDays in [1,16], request construction never
raises (it is a total function) and produces a parameter set with
exactly a 14-element current variable list, a 6-element hourly list,
an 8-element daily list, timezone set to "auto", and past_days set to
0 unconditionally. -/
theorem c7_request_shape (latitude longitude : ℚ) (forecast_days : ℤ)
    (h1 : 1 ≤ forecast_days) (h2 : forecast_days ≤ 16) :
    (forecastRequestParams latitude longitude forecast_days).current.length = 14 ∧
    (forecastRequestParams latitude longitude forecast_days).hourly.length = 6 ∧
    (forecastRequestParams latitude longitude forecast_days).daily.length = 8 ∧
    (forecastRequestParams latitude longitude forecast_days).timezone = "auto" ∧
    (forecastRequestParams latitude longitude forecast_days).past_days = 0 :=
  ⟨rfl, rfl, rfl, rfl, rfl⟩

/-- Witness for C7 at forecastDays = 3. -/
theorem c7_request_shape_witness :
    ((1:ℤ) ≤ 3 ∧ (3:ℤ) ≤ 16) ∧
    ((forecastRequestParams (mkRat 5036 100) (mkRat 3636 100) 3).current.length = 14 ∧
     (forecastRequestParams (mkRat 5036 100) (mkRat 3636 100) 3).hourly.length = 6 ∧
     (forecastRequestParams (mkRat 5036 100) (mkRat 3636 100) 3).daily.length = 8 ∧
     (forecastRequestParams (mkRat 5036 100) (mkRat 3636 100) 3).timezone = "auto" ∧
     (forecastRequestParams (mkRat 5036 100) (mkRat 3636 100) 3).past_days = 0) :=
  ⟨⟨by decide, by decide⟩,
   c7_request_shape (mkRat 5036 100) (mkRat 3636 100) 3 (by decide) (by decide)⟩

/-- C2 fails on the code: with forecastDays = 0 (outside [1,16]) no
`InvalidParameterError` is raised — request construction succeeds,
carries `forecast_days = 0`, and the network call is made: a
transport that only answers a request carrying `forecast_days = 0`
is reached and the pipeline even produces a record. -/
theorem c2_counterexample :
    (forecastRequestParams (mkRat 5036 100) (mkRat 3636 100) 0).forecast_days = 0 ∧
    (get_weather_data
        (fun p => if p.forecast_days = 0 then .ok [sampleResponse] else .error "unreached")
        (mkRat 5036 100) (mkRat 3636 100) 0 "2024-01-15 15:05:00"
        "2024-01-15T12:05:00+00:00" 0).1.isSome = true :=
  ⟨rfl, by decide⟩

/-- C2 amended: request construction performs no validation of
forecastDays — for every value outside [1,16] it still succeeds and
passes the value through to the request's forecast_days parameter
unchanged (the source has no `InvalidParameterError` and no check
before the network call). -/
theorem c2_no_validation (latitude longitude : ℚ) (forecast_days : ℤ)
    (h : forecast_days < 1 ∨ 16 < forecast_days) :
    (forecastRequestParams latitude longitude forecast_days).forecast_days
      = forecast_days := rfl

/-- Witness for the amended C2 at forecastDays = 0. -/
theorem c2_no_validation_witness :
    ((0:ℤ) < 1 ∨ 16 < (0:ℤ)) ∧
    (forecastRequestParams (mkRat 5036 100) (mkRat 3636 100) 0).forecast_days = 0 :=
  ⟨Or.inl (by decide),
   c2_no_validation (mkRat 5036 100) (mkRat 3636 100) 0 (Or.inl (by decide))⟩

/-- C8 fails on the code in one count: the catalog has 28 exact-match
integer keys, not 27 (the 28 keys are exactly the ones the claim
enumerates). -/
theorem c8_counterexample :
    (weather_codes.map Prod.fst).length = 28 ∧
    ¬(weather_codes.map Prod.fst).length = 27 := by decide

/-- C8 amended: the weather-code catalog is an exact-match lookup over
the 28 integer keys 0, 1, 2, 3, 45, 48, 51, 53, 55, 56, 57, 61, 63,
65, 66, 67, 71, 73, 75, 77, 80, 81, 82, 85, 86, 95, 96, 99: describing
code 61 yields a rain-related description (it contains "Дождь", rain),
describing any unknown code such as 12345 yields a fallback string
embedding the numeric code verbatim, and there is no partial or range
matching: every key not in the table falls back, every key in the
table maps to its own table entry. -/
theorem c8_catalog :
    weather_codes.map Prod.fst = catalogKeys ∧
    describe 61 = "🌧️ Дождь слабый" ∧
    (∃ s1 s2, describe 61 = s1 ++ "Дождь" ++ s2) ∧
    describe 12345 = "Код погоды: 12345" ∧
    (∃ s1 s2, describe 12345 = s1 ++ "12345" ++ s2) ∧
    (∀ c : ℤ, c ∉ catalogKeys → describe c = "Код погоды: " ++ toString c) ∧
    (∀ c : ℤ, c ∈ catalogKeys → (c, describe c) ∈ weather_codes) := by
  refine ⟨by decide, by decide, ⟨"🌧️ ", " слабый", by decide⟩, by decide,
    ⟨"Код погоды: ", "", by decide⟩, ?_, ?_⟩
  · intro c hc
    have hmap : c ∉ weather_codes.map Prod.fst := by
      rw [show weather_codes.map Prod.fst = catalogKeys from by decide]
      exact hc
    rw [describe, lookup_eq_none_of_not_mem hmap]
    rfl
  · intro c hc
    simp only [catalogKeys, List.mem_cons, List.not_mem_nil, or_false] at hc
    rcases hc with h | h | h | h | h | h | h | h | h | h | h | h | h | h |
      h | h | h | h | h | h | h | h | h | h | h | h | h | h <;> subst h <;> decide

/-- Witness for C8: the fallback branch at the unknown code 12345 and
the exact-match branch at the known code 61. -/
theorem c8_catalog_witness :
    ((12345 : ℤ) ∉ catalogKeys ∧
      describe 12345 = "Код погоды: " ++ toString (12345 : ℤ)) ∧
    ((61 : ℤ) ∈ catalogKeys ∧ ((61 : ℤ), describe 61) ∈ weather_codes) :=
  ⟨⟨by decide, c8_catalog.2.2.2.2.2.1 12345 (by decide)⟩,
   ⟨by decide, c8_catalog.2.2.2.2.2.2 61 (by decide)⟩⟩

/-- C1: on a raw response whose current block holds exactly 14
well-formed numeric values (and an in-range observation timestamp, as
`datetime.fromtimestamp` requires), the record builder succeeds and
applies per-field rounding: `round(·, 1)` on the temperature family,
precipitation family, wind speed and gusts; `round(·)` to an integer
on humidity, cloud cover, both pressures and wind direction; `int(·)`
truncation on the weather code.  Concretely: 18.456 → 18.5, 63.4 →
63, and 61.9 → 61 (truncated, not rounded). -/
theorem c1_per_field_rounding
    (elev : ℚ) (t : ℤ) (v0 v1 v2 v3 v4 v5 v6 v7 v8 v9 v10 v11 v12 v13 : ℚ)
    (latitude longitude : ℚ) (forecast_days : ℤ)
    (nowMsk nowUtcIso : String) (localOffSec : ℤ)
    (ht : minEpoch ≤ t ∧ t ≤ maxEpoch) :
    extractWeatherData
        ⟨elev, ⟨t, [some v0, some v1, some v2, some v3, some v4, some v5,
          some v6, some v7, some v8, some v9, some v10, some v11, some v12,
          some v13]⟩⟩
        latitude longitude forecast_days nowMsk nowUtcIso localOffSec
      = some
        { timestamp := nowMsk
          timestamp_utc := nowUtcIso
          coordinates := ⟨latitude, longitude, elev⟩
          current :=
            { time_utc := isoformatUtc t
              time_msk := convert_utc_to_msk_pytz (isoformatUtc t) localOffSec
              temperature := pyRound1 v0
              humidity := pyRound v1
              apparent_temperature := pyRound1 v2
              precipitation := pyRound1 v3
              rain := pyRound1 v4
              showers := pyRound1 v5
              snowfall := pyRound1 v6
              weather_code := intTrunc v7
              cloud_cover := pyRound v8
              pressure_msl := pyRound v9
              surface_pressure := pyRound v10
              wind_speed := pyRound1 v11
              wind_direction := pyRound v12
              wind_gusts := pyRound1 v13 }
          forecast_days := forecast_days
          units := ⟨"°C", "mm", "hPa", "km/h"⟩ } ∧
    pyRound1 (mkRat 18456 1000) = mkRat 185 10 ∧
    pyRound (mkRat 634 10) = 63 ∧
    intTrunc (mkRat 619 10) = 61 := by
  refine ⟨?_, by decide, by decide, by decide⟩
  rw [extractWeatherData, if_pos ht]
  rfl

/-- Witness for C1 at the sample response (observation time
2024-01-15T12:00:00Z): the builder produces a record. -/
theorem c1_per_field_rounding_witness :
    (minEpoch ≤ (1705320000 : ℤ) ∧ (1705320000 : ℤ) ≤ maxEpoch) ∧
    (extractWeatherData sampleResponse (mkRat 5036 100) (mkRat 3636 100) 3
        "2024-01-15 15:05:00" "2024-01-15T12:05:00+00:00" 0).isSome = true := by
  refine ⟨⟨by decide, by decide⟩, ?_⟩
  show (extractWeatherData
      ⟨mkRat 150 1,
       ⟨1705320000,
        [some (mkRat 18456 1000), some (mkRat 634 10), some (mkRat 171 10),
         some (mkRat 5 10), some (mkRat 3 10), some 0, some 0,
         some (mkRat 619 10), some (mkRat 80 1), some (mkRat 10132 10),
         some (mkRat 10015 10), some (mkRat 123 10), some (mkRat 2705 10),
         some (mkRat 204 10)]⟩⟩
      (mkRat 5036 100) (mkRat 3636 100) 3
      "2024-01-15 15:05:00" "2024-01-15T12:05:00+00:00" 0).isSome = true
  rw [(c1_per_field_rounding (mkRat 150 1) 1705320000 (mkRat 18456 1000)
      (mkRat 634 10) (mkRat 171 10) (mkRat 5 10) (mkRat 3 10) 0 0
      (mkRat 619 10) (mkRat 80 1) (mkRat 10132 10) (mkRat 10015 10)
      (mkRat 123 10) (mkRat 2705 10) (mkRat 204 10)
      (mkRat 5036 100) (mkRat 3636 100) 3
      "2024-01-15 15:05:00" "2024-01-15T12:05:00+00:00" 0
      ⟨by decide, by decide⟩).1]
  rfl

/-- C3: a raw response exposing fewer than 14 current-condition slots,
or a non-numeric value in one of the 14 expected slots, makes the
record builder fail with the failure the spec names
`MalformedResponseError` (the extraction raises and no record is
produced). -/
theorem c3_malformed_response (r : RawResponse) (latitude longitude : ℚ)
    (forecast_days : ℤ) (nowMsk nowUtcIso : String) (localOffSec : ℤ)
    (h : r.current.slots.length < 14 ∨
      ∃ i, i < 14 ∧ r.current.slots[i]? = some none) :
    weatherRecordBuild r latitude longitude forecast_days nowMsk nowUtcIso
      localOffSec = .error .malformedResponse := by
  have hnone : extractWeatherData r latitude longitude forecast_days nowMsk
      nowUtcIso localOffSec = none := by
    by_cases hc : minEpoch ≤ r.current.time ∧ r.current.time ≤ maxEpoch
    · rw [extractWeatherData, if_pos hc]
      dsimp only
      rw [extractCurrent_eq_none _ _ _ h]
      rfl
    · rw [extractWeatherData, if_neg hc]
  rw [weatherRecordBuild, hnone]
  rfl

/-- Witness for C3 at a response with only 5 slots. -/
theorem c3_malformed_response_witness :
    (shortResponse.current.slots.length < 14 ∨
      ∃ i, i < 14 ∧ shortResponse.current.slots[i]? = some none) ∧
    weatherRecordBuild shortResponse (mkRat 5036 100) (mkRat 3636 100) 3
      "2024-01-15 15:05:00" "2024-01-15T12:05:00+00:00" 0
      = .error .malformedResponse :=
  ⟨Or.inl (by decide),
   c3_malformed_response shortResponse (mkRat 5036 100) (mkRat 3636 100) 3
     "2024-01-15 15:05:00" "2024-01-15T12:05:00+00:00" 0
     (Or.inl (by decide))⟩

/-- C4: `get_weather_data` is a total function (the `try/except`
around its body lets no exception escape), and on every failure of
the fetch-build sequence — transport exception, empty provider
response list, or an exception while extracting the response — it
returns `none` and its log contains an ERROR message. -/
theorem c4_pipeline_absorbs_failures
    (transport : Params → Except String (List RawResponse))
    (latitude longitude : ℚ) (forecast_days : ℤ)
    (nowMsk nowUtcIso : String) (localOffSec : ℤ) :
    (∀ e, transport (forecastRequestParams latitude longitude forecast_days)
        = .error e →
      (get_weather_data transport latitude longitude forecast_days nowMsk
        nowUtcIso localOffSec).1 = none ∧
      ∃ m ∈ (get_weather_data transport latitude longitude forecast_days nowMsk
        nowUtcIso localOffSec).2, m.level = .error) ∧
    (transport (forecastRequestParams latitude longitude forecast_days)
        = .ok [] →
      (get_weather_data transport latitude longitude forecast_days nowMsk
        nowUtcIso localOffSec).1 = none ∧
      ∃ m ∈ (get_weather_data transport latitude longitude forecast_days nowMsk
        nowUtcIso localOffSec).2, m.level = .error) ∧
    (∀ r rest, transport (forecastRequestParams latitude longitude forecast_days)
        = .ok (r :: rest) →
      extractWeatherData r latitude longitude forecast_days nowMsk nowUtcIso
        localOffSec = none →
      (get_weather_data transport latitude longitude forecast_days nowMsk
        nowUtcIso localOffSec).1 = none ∧
      ∃ m ∈ (get_weather_data transport latitude longitude forecast_days nowMsk
        nowUtcIso localOffSec).2, m.level = .error) := by
  refine ⟨?_, ?_, ?_⟩
  · intro e he
    rw [get_weather_data, he]
    exact ⟨rfl, ⟨.error, "Ошибка при получении данных погоды: " ++ e⟩,
      by simp, rfl⟩
  · intro he
    rw [get_weather_data, he]
    exact ⟨rfl, ⟨.error, "Получен пустой ответ от API"⟩, by simp, rfl⟩
  · intro r rest he hx
    rw [get_weather_data, he]
    dsimp only
    rw [weatherRecordBuild, hx]
    exact ⟨rfl, ⟨.error, "Ошибка при получении данных погоды: malformed response"⟩,
      by simp, rfl⟩

/-- Witness for C4: a transport returning the empty response list
makes the pipeline return `none` with an ERROR log entry. -/
theorem c4_pipeline_absorbs_failures_witness :
    ((fun _ : Params => (.ok [] : Except String (List RawResponse)))
        (forecastRequestParams (mkRat 5036 100) (mkRat 3636 100) 3) = .ok []) ∧
    ((get_weather_data (fun _ => .ok []) (mkRat 5036 100) (mkRat 3636 100) 3
        "2024-01-15 15:05:00" "2024-01-15T12:05:00+00:00" 0).1 = none ∧
      ∃ m ∈ (get_weather_data (fun _ => .ok []) (mkRat 5036 100) (mkRat 3636 100)
        3 "2024-01-15 15:05:00" "2024-01-15T12:05:00+00:00" 0).2,
        m.level = .error) :=
  ⟨rfl,
   (c4_pipeline_absorbs_failures (fun _ => .ok []) (mkRat 5036 100)
     (mkRat 3636 100) 3 "2024-01-15 15:05:00" "2024-01-15T12:05:00+00:00"
     0).2.1 rfl⟩

/-- C5 fails on the code for negative explicit offsets: the string
"2024-01-15T12:00:00-05:00" carries an explicit offset, but since it
contains neither '+' nor 'Z' the converter takes the no-offset branch,
where `pytz.UTC.localize` raises on the already-aware datetime and the
original string is returned unchanged — it is not parsed with its
offset (that would yield "2024-01-15 20:00:00"). -/
theorem c5_counterexample :
    convert_utc_to_msk_pytz "2024-01-15T12:00:00-05:00" 0
      = "2024-01-15T12:00:00-05:00" ∧
    convert_utc_to_msk_pytz "2024-01-15T12:00:00-05:00" 0
      ≠ "2024-01-15 20:00:00" := by decide

/-- C5 amended: "2024-01-15T12:00:00Z" converts to
"2024-01-15 15:00:00" (fixed +3 offset); an ISO input carrying no
offset (hence neither '+' nor 'Z') is treated as UTC before
localizing; and an input carrying 'Z' or a '+' offset (not a negative
one) is parsed with that offset — in both cases provided the
converted instant stays inside CPython's supported datetime range. -/
theorem c5_time_conversion :
    (∀ off : ℤ,
      convert_utc_to_msk_pytz "2024-01-15T12:00:00Z" off
        = "2024-01-15 15:00:00") ∧
    (∀ (s : String) (dt : PyDateTime) (off : ℤ),
      fromisoformat s.data = some dt → dt.tzOffsetMinutes = none →
      '+' ∉ s.data → 'Z' ∉ s.data →
      minEpoch ≤ epochOfCivil dt →
      epochOfCivil dt + mskOffsetSeconds ≤ maxEpoch →
      convert_utc_to_msk_pytz s off
        = strftimeCivil (civilOfEpoch (epochOfCivil dt + mskOffsetSeconds))) ∧
    (∀ (s : String) (dt : PyDateTime) (o off : ℤ),
      ('+' ∈ s.data ∨ 'Z' ∈ s.data) →
      fromisoformat (replaceZ s.data) = some dt →
      dt.tzOffsetMinutes = some o →
      minEpoch ≤ epochOfCivil dt - o * 60 →
      epochOfCivil dt - o * 60 + mskOffsetSeconds ≤ maxEpoch →
      convert_utc_to_msk_pytz s off
        = strftimeCivil
            (civilOfEpoch (epochOfCivil dt - o * 60 + mskOffsetSeconds))) := by
  have hmsk : mskOffsetSeconds = 10800 := rfl
  refine ⟨fun off => rfl, ?_, ?_⟩
  · intro s dt off hp htz hplus hZ h1 h2
    obtain ⟨y, mo, dd, hh, mi, ss, tz⟩ := dt
    have htz' : tz = none := htz
    subst htz'
    rw [convert_utc_to_msk_pytz, convert_attempt, if_neg (by simp [hplus, hZ]),
      hp, Option.some_bind]
    dsimp only
    rw [astimezoneToMsk, if_pos ⟨h1, by omega⟩, if_pos ⟨by omega, h2⟩]
    rfl
  · intro s dt o off hpz hp htz h1 h2
    obtain ⟨y, mo, dd, hh, mi, ss, tz⟩ := dt
    have htz' : tz = some o := htz
    subst htz'
    rw [convert_utc_to_msk_pytz, convert_attempt, if_pos hpz, hp,
      Option.some_bind, convertAware]
    dsimp only
    rw [astimezoneToMsk, if_pos ⟨h1, by omega⟩, if_pos ⟨by omega, h2⟩]
    rfl

/-- Witness for the amended C5: the no-offset input
"2024-01-15T12:00:00" is treated as UTC and converts to
"2024-01-15 15:00:00". -/
theorem c5_time_conversion_witness :
    (fromisoformat "2024-01-15T12:00:00".data
        = some ⟨2024, 1, 15, 12, 0, 0, none⟩ ∧
      (⟨2024, 1, 15, 12, 0, 0, none⟩ : PyDateTime).tzOffsetMinutes = none ∧
      '+' ∉ "2024-01-15T12:00:00".data ∧ 'Z' ∉ "2024-01-15T12:00:00".data ∧
      minEpoch ≤ epochOfCivil ⟨2024, 1, 15, 12, 0, 0, none⟩ ∧
      epochOfCivil ⟨2024, 1, 15, 12, 0, 0, none⟩ + mskOffsetSeconds ≤ maxEpoch) ∧
    convert_utc_to_msk_pytz "2024-01-15T12:00:00" 0 = "2024-01-15 15:00:00" := by
  refine ⟨⟨by decide, by decide, by decide, by decide, by decide, by decide⟩, ?_⟩
  have h := c5_time_conversion.2.1 "2024-01-15T12:00:00"
    ⟨2024, 1, 15, 12, 0, 0, none⟩ 0 (by decide) (by decide) (by decide)
    (by decide) (by decide) (by decide)
  rw [h]
  decide

/-- C6: whenever the time converter's `try` block fails — in
particular on any unparsable input, and on any input that lands in
the no-offset branch with an aware datetime (where `pytz` raises) —
the original input string is returned unchanged, so record
construction is never aborted by a time-formatting failure. -/
theorem c6_degrade_to_input :
    (∀ (s : String) (off : ℤ), convert_attempt s off = none →
      convert_utc_to_msk_pytz s off = s) ∧
    (∀ (s : String) (off : ℤ), fromisoformat s.data = none →
      '+' ∉ s.data → 'Z' ∉ s.data → convert_utc_to_msk_pytz s off = s) ∧
    (∀ (s : String) (dt : PyDateTime) (o off : ℤ),
      '+' ∉ s.data → 'Z' ∉ s.data → fromisoformat s.data = some dt →
      dt.tzOffsetMinutes = some o → convert_utc_to_msk_pytz s off = s) := by
  refine ⟨?_, ?_, ?_⟩
  · intro s off h
    rw [convert_utc_to_msk_pytz, h]
    rfl
  · intro s off hp hplus hZ
    rw [convert_utc_to_msk_pytz, convert_attempt, if_neg (by simp [hplus, hZ]),
      hp]
    rfl
  · intro s dt o off hplus hZ hp htz
    obtain ⟨y, mo, dd, hh, mi, ss, tz⟩ := dt
    have htz' : tz = some o := htz
    subst htz'
    rw [convert_utc_to_msk_pytz, convert_attempt, if_neg (by simp [hplus, hZ]),
      hp, Option.some_bind]
    rfl

/-- Witness for C6 at the unparsable input "garbage". -/
theorem c6_degrade_to_input_witness :
    convert_attempt "garbage" 0 = none ∧
    convert_utc_to_msk_pytz "garbage" 0 = "garbage" :=
  ⟨by decide, c6_degrade_to_input.1 "garbage" 0 (by decide)⟩

/-- C9: summary rendering is deterministic — equal records render to
the identical line sequence — and every rendering is the fixed
ordered sequence of labeled lines: header, observation time, request
time, temperature with apparent temperature, humidity, weather
description, wind speed with gusts, pressure, precipitation. -/
theorem c9_render_deterministic (w1 w2 : WeatherData) (h : w1 = w2) :
    log_weather_summary (some w1) = log_weather_summary (some w2) ∧
    ∃ t1 t2 t3 t4 t5 t6 t7 t8,
      log_weather_summary (some w1) =
        ["СВОДКА ПОГОДЫ",
         "Время наблюдения (МСК): " ++ t1,
         "Время запроса (МСК):    " ++ t2,
         "Температура:            " ++ t3,
         "Влажность:              " ++ t4,
         "Погода:                 " ++ t5,
         "Ветер:                  " ++ t6,
         "Давление:               " ++ t7,
         "Осадки:                 " ++ t8] := by
  subst h
  exact ⟨rfl, _, _, _, _, _, _, _, _, rfl⟩

/-- Witness for C9 at the sample record. -/
theorem c9_render_deterministic_witness :
    sampleRecord = sampleRecord ∧
    (log_weather_summary (some sampleRecord)
        = log_weather_summary (some sampleRecord) ∧
      ∃ t1 t2 t3 t4 t5 t6 t7 t8,
        log_weather_summary (some sampleRecord) =
          ["СВОДКА ПОГОДЫ",
           "Время наблюдения (МСК): " ++ t1,
           "Время запроса (МСК):    " ++ t2,
           "Температура:            " ++ t3,
           "Влажность:              " ++ t4,
           "Погода:                 " ++ t5,
           "Ветер:                  " ++ t6,
           "Давление:               " ++ t7,
           "Осадки:                 " ++ t8]) :=
  ⟨rfl, c9_render_deterministic sampleRecord sampleRecord rfl⟩

/-- C10: the integer-rounded fields (humidity, cloud cover,
mean-sea-level pressure, surface pressure, wind direction) use
Python's `round`, which rounds half to even: an input exactly halfway
between two integers rounds to the even neighbour — 62.5 → 62 and
63.5 → 64 — and the record builder exhibits exactly that on each of
the five fields. -/
theorem c10_half_to_even :
    (∀ n : ℤ, pyRound ((n : ℚ) + 1 / 2) = if Even n then n else n + 1) ∧
    (pyRound (mkRat 625 10) = 62 ∧ pyRound (mkRat 635 10) = 64) ∧
    (∀ (t : ℤ) (tu tm : String) (n1 n2 n3 n4 n5 : ℤ)
        (v0 v2 v3 v4 v5 v6 v7 v11 v13 : ℚ),
      ∃ cur,
        extractCurrent
            ⟨t, [some v0, some ((n1 : ℚ) + 1 / 2), some v2, some v3, some v4,
              some v5, some v6, some v7, some ((n2 : ℚ) + 1 / 2),
              some ((n3 : ℚ) + 1 / 2), some ((n4 : ℚ) + 1 / 2), some v11,
              some ((n5 : ℚ) + 1 / 2), some v13]⟩ tu tm = some cur ∧
        cur.humidity = (if Even n1 then n1 else n1 + 1) ∧
        cur.cloud_cover = (if Even n2 then n2 else n2 + 1) ∧
        cur.pressure_msl = (if Even n3 then n3 else n3 + 1) ∧
        cur.surface_pressure = (if Even n4 then n4 else n4 + 1) ∧
        cur.wind_direction = (if Even n5 then n5 else n5 + 1)) := by
  refine ⟨pyRound_add_half, ⟨by decide, by decide⟩, ?_⟩
  intro t tu tm n1 n2 n3 n4 n5 v0 v2 v3 v4 v5 v6 v7 v11 v13
  refine ⟨_, rfl, ?_, ?_, ?_, ?_, ?_⟩
  · exact pyRound_add_half n1
  · exact pyRound_add_half n2
  · exact pyRound_add_half n3
  · exact pyRound_add_half n4
  · exact pyRound_add_half n5

end Weather
